import Mathlib

/-!
Shallow embedding of `src/ebay-seller-restock-bot.js`, an eBay restock bot
that polls on a fixed interval, refreshing an OAuth access token from a
refresh token (with a 60-second safety-margin cache), building a
ReviseInventoryStatus XML request, calling the Trading API and parsing the
XML response for logging.

Modelling conventions:
- JavaScript exceptions become `Except JsError`; network and XML-parse
  outcomes are passed in as explicit oracle values.
- `Date.now()` is passed in explicitly: `now` is the reading at function
  entry (line 41 of the source), `now2` the reading taken when storing the
  new expiry (line 62).
- Times are `Int` milliseconds; `null`/`undefined` string values are
  `Option String` with `none` for the absent value.
- JS truthiness of a possibly-absent string (`cachedToken && ...`,
  `!EBAY_CLIENT_ID`) is `isTruthyStr`: both the absent value and the empty
  string are falsy.
-/

/-- A JavaScript runtime error (an axios HTTP error or an xml2js rejection);
only its presence matters to the control flow being modelled. -/
structure JsError where
  message : String
deriving DecidableEq, Repr

/-- JS truthiness of a string-or-absent value: `undefined`/`null` and the
empty string are falsy, every other string is truthy. -/
def isTruthyStr : Option String → Bool
  | none => false
  | some s => decide (s ≠ "")

/-- Whether an `Except` value is the error case. -/
def isErr {ε α : Type} : Except ε α → Bool
  | .error _ => true
  | .ok _ => false

/-- The JSON body of a successful OAuth refresh response (source lines
59-61): `access_token` and `expires_in` fields, either possibly absent. -/
structure RefreshResponse where
  access_token : Option String
  expires_in : Option Nat
deriving DecidableEq, Repr

/-- The module-level token cache (source lines 36-37): `cachedToken`
(initially `null`) and `tokenExpiresAt` in ms (initially `0`). -/
structure TokenState where
  cachedToken : Option String
  tokenExpiresAt : Int
deriving DecidableEq, Repr

/-- The initial cache state: `cachedToken = null`, `tokenExpiresAt = 0`. -/
def initialTokenState : TokenState := ⟨none, 0⟩

/-- Embedding of `getAccessToken` (source lines 40-65). Inputs: the two
`Date.now()` readings, the cache state, and the outcome `net` of the
refresh POST (the only network interaction). Output: the value returned
or error thrown, the cache state afterwards, and whether the network
request was performed.

Source logic: if `cachedToken && now < tokenExpiresAt - 60_000` return the
cache untouched with no request; otherwise POST, and on success set
`cachedToken = data.access_token` (which may be absent), compute
`expiresIn = data.expires_in || 3600` (JS `||`: an absent OR zero
`expires_in` falls back to 3600), set `tokenExpiresAt` and return the new
`cachedToken`. An HTTP error propagates to the caller before any cache
mutation. -/
def getAccessToken (now now2 : Int) (st : TokenState)
    (net : Except JsError RefreshResponse) :
    Except JsError (Option String) × TokenState × Bool :=
  if isTruthyStr st.cachedToken ∧ now < st.tokenExpiresAt - 60000 then
    (.ok st.cachedToken, st, false)
  else
    match net with
    | .error e => (.error e, st, true)
    | .ok data =>
      let expiresIn : Nat :=
        match data.expires_in with
        | some n => if n = 0 then 3600 else n
        | none => 3600
      (.ok data.access_token,
       ⟨data.access_token, now2 + (expiresIn : Int) * 1000⟩,
       true)

/-- Embedding of `buildReviseInventoryStatusRequest` (source lines 68-83):
maps each item id to an InventoryStatus block via the template literal,
joins with the empty string, and wraps in the fixed XML envelope. Item ids
are inserted verbatim (no escaping), the quantity is shared by all items. -/
def buildReviseInventoryStatusRequest (itemIds : List String) (quantity : Nat) : String :=
  let inventoryStatusBlocks := String.join (itemIds.map (fun id =>
    "\n    <InventoryStatus>\n      <ItemID>" ++ id ++
    "</ItemID>\n      <Quantity>" ++ toString quantity ++
    "</Quantity>\n    </InventoryStatus>"))
  "<?xml version=\"1.0\" encoding=\"utf-8\"?>\n<ReviseInventoryStatusRequest xmlns=\"urn:ebay:apis:eBLBaseComponents\">\n  "
    ++ inventoryStatusBlocks ++ "\n</ReviseInventoryStatusRequest>"

/-- Number of (possibly overlapping) occurrences of `pat` in `s`, by direct
scan; used to state facts about the generated XML. -/
def countSub (pat : List Char) : List Char → Nat
  | [] => 0
  | c :: rest =>
    (if pat.isPrefixOf (c :: rest) then 1 else 0) + countSub pat rest

/-- Occurrence count lifted to `String`. -/
def countOcc (s pat : String) : Nat := countSub pat.data s.data

/-- Index of the first occurrence of `pat`, if any. -/
def firstIdx (pat : List Char) : List Char → Option Nat
  | [] => none
  | c :: rest =>
    if pat.isPrefixOf (c :: rest) then some 0
    else (firstIdx pat rest).map (· + 1)

/-- First-occurrence index lifted to `String`. -/
def firstIdxS (s pat : String) : Option Nat := firstIdx pat.data s.data

/-- Embedding of `callTradingAPI` (source lines 86-111): the POST outcome is
the oracle `api`; on success the response body is returned, on error the
error is logged and re-thrown unchanged, so the call is outcome-preserving. -/
def callTradingAPI (api : Except JsError String) : Except JsError String :=
  match api with
  | .ok body => .ok body
  | .error e => .error e

/-- An `<Errors>` child of the response as produced by xml2js:
`ErrorCode`, `ShortMessage`, optional `LongMessage`. -/
structure ErrorNode where
  ErrorCode : String
  ShortMessage : String
  LongMessage : Option String
deriving DecidableEq, Repr

/-- An `<InventoryStatus>` child of the response as produced by xml2js:
`ItemID` and optional `SKU`. -/
structure StatusNode where
  ItemID : String
  SKU : Option String
deriving DecidableEq, Repr

/-- A field value under xml2js with `explicitArray: false`: a lone child
element becomes the bare object, repeated children become an array. -/
inductive OneOrMany (α : Type) : Type
  | one : α → OneOrMany α
  | many : List α → OneOrMany α
deriving DecidableEq, Repr

/-- The `Array.isArray(x) ? x : [x]` normalization used at source lines 130
and 142-144. -/
def toArray {α : Type} : OneOrMany α → List α
  | .one a => [a]
  | .many l => l

/-- How xml2js with `explicitArray: false` renders a repeated child element
from its list of children: absent for zero children, the bare element for
exactly one, an array for two or more. -/
def xml2jsField {α : Type} : List α → Option (OneOrMany α)
  | [] => none
  | [a] => some (.one a)
  | a :: b :: t => some (.many (a :: b :: t))

/-- The parsed `ReviseInventoryStatusResponse` element: `Ack`, optional
`Errors` and optional `InventoryStatus` fields, each in xml2js shape. -/
structure RespNode where
  Ack : Option String
  Errors : Option (OneOrMany ErrorNode)
  InventoryStatus : Option (OneOrMany StatusNode)
deriving DecidableEq, Repr

/-- The xml2js parse of a well-formed response document whose root holds
the given `Ack` and the given lists of error and item children. -/
def mkRoot (ack : Option String) (errs : List ErrorNode)
    (items : List StatusNode) : RespNode :=
  ⟨ack, xml2jsField errs, xml2jsField items⟩

/-- What `parseAndLogResponse` reports via console: whether the
unexpected-shape branch was taken, the Ack value logged, the
`(ErrorCode, ShortMessage, LongMessage-or-empty)` triples logged, and
the `(ItemID, SKU)` pairs logged. -/
structure ParseReport where
  unexpected : Bool
  ack : Option String
  loggedErrors : List (String × String × String)
  loggedItems : List (String × Option String)
deriving DecidableEq, Repr

/-- Embedding of `parseAndLogResponse` (source lines 114-153), taking the
already-parsed `parsed.ReviseInventoryStatusResponse` field (absent when
the root element is missing). With no root it logs the unexpected shape
and returns with nothing reported; otherwise it logs the Ack, each error
(normalized to an array) as code, short message and `LongMessage || ''`,
and each inventory status (normalized to an array) as item id and SKU. -/
def parseAndLogResponse (root : Option RespNode) : ParseReport :=
  match root with
  | none => { unexpected := true, ack := none, loggedErrors := [], loggedItems := [] }
  | some resp =>
    { unexpected := false
      ack := resp.Ack
      loggedErrors :=
        match resp.Errors with
        | none => []
        | some v => (toArray v).map (fun e =>
            (e.ErrorCode, e.ShortMessage, e.LongMessage.getD ""))
      loggedItems :=
        match resp.InventoryStatus with
        | none => []
        | some v => (toArray v).map (fun s => (s.ItemID, s.SKU)) }

/-- Embedding of the startup environment check (source lines 16-19):
`process.exit(1)` when any of the four required variables is JS-falsy
(absent or empty). `some code` is the exit code, `none` means startup
proceeds. -/
def startupExit (clientId clientSecret refreshToken targetItemIds : Option String) :
    Option Nat :=
  if !isTruthyStr clientId || !isTruthyStr clientSecret ||
     !isTruthyStr refreshToken || !isTruthyStr targetItemIds then
    some 1
  else
    none

/-- Startup outcome: the exit code if the process exits at the env check,
paired with whether execution ever reaches the polling code (the only
place network calls are made). The check at lines 16-19 precedes the
IIFE at line 184, so an exit there happens before any network call. -/
def runStartup (clientId clientSecret refreshToken targetItemIds : Option String) :
    Option Nat × Bool :=
  match startupExit clientId clientSecret refreshToken targetItemIds with
  | some code => (some code, false)
  | none => (none, true)

/-- The oracle inputs consumed by one poll cycle: the two clock readings
used by `getAccessToken`, the refresh POST outcome, the Trading API POST
outcome, and the xml2js outcome on the response body (`.ok none` when the
document parses but lacks the expected root element). -/
structure CycleInput where
  now : Int
  now2 : Int
  net : Except JsError RefreshResponse
  api : Except JsError String
  parsed : Except JsError (Option RespNode)
deriving Repr

/-- The observable outcome of one `processItems` cycle: whether the token
[FATAL] catch ran, whether the Trading-call [FATAL] catch ran, the request
body built (absent when the cycle aborted before building it), the parse
report (absent unless parsing ran), and whether the cycle reached its
closing POLL END log. -/
structure CycleResult where
  authFailed : Bool
  apiFailed : Bool
  requestXml : Option String
  report : Option ParseReport
  completed : Bool
deriving DecidableEq, Repr

/-- Embedding of `processItems` (source lines 156-181). A token-acquisition
error is caught, logged and ends the cycle early (before POLL END, and
before the request is built). Otherwise the request is built and the
Trading call plus response parsing run inside one try/catch: an error in
either is caught and logged, and the cycle still reaches POLL END. The
function never throws. -/
def processItems (itemIds : List String) (qty : Nat) (st : TokenState)
    (inp : CycleInput) : CycleResult × TokenState :=
  let r := getAccessToken inp.now inp.now2 st inp.net
  let st1 := r.2.1
  match r.1 with
  | .error _ =>
    ({ authFailed := true, apiFailed := false, requestXml := none,
       report := none, completed := false }, st1)
  | .ok _token =>
    let xmlBody := buildReviseInventoryStatusRequest itemIds qty
    match callTradingAPI inp.api with
    | .error _ =>
      ({ authFailed := false, apiFailed := true, requestXml := some xmlBody,
         report := none, completed := true }, st1)
    | .ok _xmlResponse =>
      match inp.parsed with
      | .error _ =>
        ({ authFailed := false, apiFailed := true, requestXml := some xmlBody,
           report := none, completed := true }, st1)
      | .ok root =>
        ({ authFailed := false, apiFailed := false, requestXml := some xmlBody,
           report := some (parseAndLogResponse root), completed := true }, st1)

/-- The polling loop (source lines 184-196): `processItems` runs once per
scheduled tick, threading only the shared token cache; a rejection would
be swallowed by the `.catch` handler, and in the model `processItems` is
total, so every scheduled cycle runs. One `CycleInput` per tick. -/
def runLoop (itemIds : List String) (qty : Nat) :
    TokenState → List CycleInput → List CycleResult
  | _, [] => []
  | st, inp :: rest =>
    let r := processItems itemIds qty st inp
    r.1 :: runLoop itemIds qty r.2 rest

/-- C1 counterexample: the cache holds the token value `""` (a cached token
exists) with expiry 1000000 ms while the current time 0 is more than 60
seconds before it, yet the call performs the network request, returns the
freshly fetched token rather than the cached value, and rewrites the
cache: the JS guard `cachedToken && ...` treats the empty string as falsy. -/
theorem C1_counterexample :
    getAccessToken 0 5 ⟨some "", 1000000⟩ (.ok ⟨some "tok2", some 7200⟩)
      = (.ok (some "tok2"), ⟨some "tok2", 7200005⟩, true)
    ∧ (0 : Int) < 1000000 - 60000 := by
  constructor
  · rfl
  · decide

/-- C1 (amended): for every call to getAccessToken made while a cached
NON-EMPTY token exists and the current time is more than 60 seconds before
the recorded expiry, the call returns the identical cached token value,
performs no network request, and leaves the cache unchanged. -/
theorem C1_cache_hit (now now2 : Int) (st : TokenState)
    (net : Except JsError RefreshResponse) (t : String)
    (hcache : st.cachedToken = some t) (hne : t ≠ "")
    (hfresh : now < st.tokenExpiresAt - 60000) :
    getAccessToken now now2 st net = (.ok (some t), st, false) := by
  unfold getAccessToken
  rw [hcache]
  simp [isTruthyStr, hne, hfresh, hcache]

/-- Witness for C1 (amended) at a concrete cache state and clock. -/
theorem C1_cache_hit_witness :
    getAccessToken 0 0 ⟨some "tok", 1000000⟩ (.ok ⟨some "other", none⟩)
      = (.ok (some "tok"), ⟨some "tok", 1000000⟩, false) :=
  C1_cache_hit 0 0 ⟨some "tok", 1000000⟩ (.ok ⟨some "other", none⟩) "tok"
    rfl (by decide) (by decide)

/-- C2 counterexample: a refresh response that does carry a lifetime,
namely `expires_in = 0`, is stored with expiry `now + 3600` seconds rather
than `now + 0`: the JS fallback `data.expires_in || 3600` also fires on a
present-but-zero lifetime. -/
theorem C2_counterexample :
    getAccessToken 0 5 initialTokenState (.ok ⟨some "tok", some 0⟩)
      = (.ok (some "tok"), ⟨some "tok", 3600005⟩, true)
    ∧ (3600005 : Int) ≠ 5 + 0 * 1000 := by
  constructor
  · rfl
  · decide

/-- C2 (amended): when no token is cached or the cached expiry is within 60
seconds or passed, the call performs the refresh POST; on a successful
response it stores the returned access token and sets the cached expiry to
the current time plus the returned lifetime in seconds, using 3600 seconds
when the response carries no lifetime or a zero lifetime. -/
theorem C2_refresh (now now2 : Int) (st : TokenState)
    (net : Except JsError RefreshResponse)
    (hstale : st.cachedToken = none ∨ st.tokenExpiresAt - 60000 ≤ now) :
    (getAccessToken now now2 st net).2.2 = true
    ∧ (∀ data : RefreshResponse, net = .ok data →
        (getAccessToken now now2 st net).1 = .ok data.access_token
        ∧ (getAccessToken now now2 st net).2.1.cachedToken = data.access_token
        ∧ (∀ n : Nat, data.expires_in = some n → n ≠ 0 →
            (getAccessToken now now2 st net).2.1.tokenExpiresAt = now2 + (n : Int) * 1000)
        ∧ ((data.expires_in = none ∨ data.expires_in = some 0) →
            (getAccessToken now now2 st net).2.1.tokenExpiresAt = now2 + 3600 * 1000)) := by
  have hcond : ¬(isTruthyStr st.cachedToken = true ∧ now < st.tokenExpiresAt - 60000) := by
    rcases hstale with h | h
    · rintro ⟨h1, _⟩
      rw [h] at h1
      exact Bool.noConfusion h1
    · rintro ⟨_, h2⟩
      omega
  unfold getAccessToken
  rw [if_neg hcond]
  cases net with
  | error e =>
    exact ⟨rfl, fun data hd => Except.noConfusion hd⟩
  | ok data0 =>
    refine ⟨rfl, ?_⟩
    intro data hd
    injection hd with hd'
    subst hd'
    refine ⟨rfl, rfl, ?_, ?_⟩
    · intro n hn hn0
      simp [hn, hn0]
    · rintro (h0 | h0) <;> simp [h0]

/-- Witness for C2 (amended) on the empty cache with lifetime 7200. -/
theorem C2_refresh_witness :
    (getAccessToken 0 5 initialTokenState (.ok ⟨some "t", some 7200⟩)).2.2 = true
    ∧ (getAccessToken 0 5 initialTokenState
        (.ok ⟨some "t", some 7200⟩)).2.1.tokenExpiresAt = 5 + 7200 * 1000 := by
  have h := C2_refresh 0 5 initialTokenState (.ok ⟨some "t", some 7200⟩) (Or.inl rfl)
  exact ⟨h.1, (h.2 ⟨some "t", some 7200⟩ rfl).2.2.1 7200 rfl (by decide)⟩

/-- C3 counterexample: on a successful refresh response that contains no
access token, getAccessToken does NOT fail: it returns normally (with the
absent value), caching the absence and the fresh expiry, instead of
signalling an error to its caller. -/
theorem C3_counterexample :
    getAccessToken 0 5 initialTokenState (.ok ⟨none, some 7200⟩)
      = (.ok none, ⟨none, 7200005⟩, true) := by
  rfl

/-- C3 (amended): getAccessToken signals an error to its caller in exactly
one case: the call is not served from the cache and the refresh HTTP call
errors. A successful refresh response never causes a failure, even when it
carries no access token (the call then returns with no token value), and a
cache hit never fails. -/
theorem C3_error_cases (now now2 : Int) (st : TokenState) :
    (∀ data : RefreshResponse, ∃ v : Option String,
        (getAccessToken now now2 st (.ok data)).1 = .ok v)
    ∧ (∀ e : JsError,
        (isTruthyStr st.cachedToken = false ∨ st.tokenExpiresAt - 60000 ≤ now) →
        (getAccessToken now now2 st (.error e)).1 = .error e)
    ∧ (∀ e : JsError, isTruthyStr st.cachedToken = true →
        now < st.tokenExpiresAt - 60000 →
        (getAccessToken now now2 st (.error e)).1 = .ok st.cachedToken) := by
  refine ⟨?_, ?_, ?_⟩
  · intro data
    unfold getAccessToken
    by_cases hc : isTruthyStr st.cachedToken = true ∧ now < st.tokenExpiresAt - 60000
    · exact ⟨st.cachedToken, by rw [if_pos hc]⟩
    · exact ⟨data.access_token, by rw [if_neg hc]⟩
  · intro e h
    have hc : ¬(isTruthyStr st.cachedToken = true ∧ now < st.tokenExpiresAt - 60000) := by
      rcases h with h | h
      · rintro ⟨h1, _⟩
        rw [h] at h1
        exact Bool.noConfusion h1
      · rintro ⟨_, h2⟩
        omega
    unfold getAccessToken
    rw [if_neg hc]
  · intro e h1 h2
    unfold getAccessToken
    rw [if_pos ⟨h1, h2⟩]

/-- Witness for C3 (amended): on the empty cache a failing refresh POST
propagates its error. -/
theorem C3_error_cases_witness :
    (getAccessToken 0 5 initialTokenState (.error ⟨"boom"⟩)).1 = .error ⟨"boom"⟩ :=
  (C3_error_cases 0 5 initialTokenState).2.1 ⟨"boom"⟩ (Or.inl rfl)

/-- C10: if the refresh HTTP POST inside getAccessToken fails, the cached
token and its recorded expiry are exactly as before the call: the code
mutates the cache only after a successful response. -/
theorem C10_error_preserves_cache (now now2 : Int) (st : TokenState) (e : JsError) :
    (getAccessToken now now2 st (.error e)).2.1 = st := by
  unfold getAccessToken
  by_cases hc : isTruthyStr st.cachedToken = true ∧ now < st.tokenExpiresAt - 60000
  · rw [if_pos hc]
  · rw [if_neg hc]

set_option maxRecDepth 40000 in
/-- C4: buildReviseInventoryStatusRequest is embedded as a total Lean
function, which expresses that it is a pure function of its arguments (no
side effects, never fails). For the input ids 111 and 222 with quantity 3,
the output contains exactly two opening and two closing InventoryStatus
tags and exactly two ItemID tags (so exactly two item blocks and no
others), each id appears verbatim in its own ItemID tag exactly once, the
shared quantity 3 appears in exactly two Quantity tags, and the blocks are
in input order: the 111 tag first occurs at index 141, before the 222 tag
at index 242. -/
theorem C4_build_request :
    countOcc (buildReviseInventoryStatusRequest ["111", "222"] 3) "<InventoryStatus>" = 2
    ∧ countOcc (buildReviseInventoryStatusRequest ["111", "222"] 3) "</InventoryStatus>" = 2
    ∧ countOcc (buildReviseInventoryStatusRequest ["111", "222"] 3) "<ItemID>" = 2
    ∧ countOcc (buildReviseInventoryStatusRequest ["111", "222"] 3) "<ItemID>111</ItemID>" = 1
    ∧ countOcc (buildReviseInventoryStatusRequest ["111", "222"] 3) "<ItemID>222</ItemID>" = 1
    ∧ countOcc (buildReviseInventoryStatusRequest ["111", "222"] 3) "<Quantity>3</Quantity>" = 2
    ∧ firstIdxS (buildReviseInventoryStatusRequest ["111", "222"] 3) "<ItemID>111</ItemID>" = some 141
    ∧ firstIdxS (buildReviseInventoryStatusRequest ["111", "222"] 3) "<ItemID>222</ItemID>" = some 242
    ∧ (141 : Nat) < 242 := by
  refine ⟨rfl, rfl, rfl, rfl, rfl, rfl, rfl, rfl, by decide⟩

/-- C5: for every well-formed response (any Ack, any list of error
children, any list of item children, rendered by xml2js), the parser
normalizes singleton and multi-element children to sequences: the reported
item-result list has exactly the length of the item-child list (so one
child gives length 1, n children give length n), and likewise for error
blocks. -/
theorem C5_singleton_normalization (ack : Option String)
    (errs : List ErrorNode) (items : List StatusNode) :
    (parseAndLogResponse (some (mkRoot ack errs items))).loggedItems.length = items.length
    ∧ (parseAndLogResponse (some (mkRoot ack errs items))).loggedErrors.length = errs.length := by
  constructor
  · cases items with
    | nil => simp [parseAndLogResponse, mkRoot, xml2jsField]
    | cons a t =>
      cases t with
      | nil => simp [parseAndLogResponse, mkRoot, xml2jsField, toArray]
      | cons b t2 => simp [parseAndLogResponse, mkRoot, xml2jsField, toArray]
  · cases errs with
    | nil => simp [parseAndLogResponse, mkRoot, xml2jsField]
    | cons a t =>
      cases t with
      | nil => simp [parseAndLogResponse, mkRoot, xml2jsField, toArray]
      | cons b t2 => simp [parseAndLogResponse, mkRoot, xml2jsField, toArray]

/-- C6: for every response, parsing surfaces each error block as its code,
its short message and its long message (empty when absent), in order; and
a response with zero error blocks yields the empty error list while the
parse still succeeds (the parser is a total function). -/
theorem C6_errors_surfaced (ack : Option String)
    (errs : List ErrorNode) (items : List StatusNode) :
    (parseAndLogResponse (some (mkRoot ack errs items))).loggedErrors
      = errs.map (fun e => (e.ErrorCode, e.ShortMessage, e.LongMessage.getD ""))
    ∧ (parseAndLogResponse (some (mkRoot ack [] items))).loggedErrors = [] := by
  constructor
  · cases errs with
    | nil => simp [parseAndLogResponse, mkRoot, xml2jsField]
    | cons a t =>
      cases t with
      | nil => simp [parseAndLogResponse, mkRoot, xml2jsField, toArray]
      | cons b t2 => simp [parseAndLogResponse, mkRoot, xml2jsField, toArray]
  · simp [parseAndLogResponse, mkRoot, xml2jsField]

/-- Helper: a refresh POST that yields a successful response never makes
getAccessToken fail, whichever branch is taken. -/
lemma getAccessToken_ok_of_ok (now now2 : Int) (st : TokenState)
    (data : RefreshResponse) :
    isErr (getAccessToken now now2 st (.ok data)).1 = false := by
  unfold getAccessToken
  by_cases hc : isTruthyStr st.cachedToken = true ∧ now < st.tokenExpiresAt - 60000
  · rw [if_pos hc]
    rfl
  · rw [if_neg hc]
    rfl

/-- C7: when the parsed document lacks the ReviseInventoryStatusResponse
root, parseAndLogResponse logs the unexpected shape and returns with
nothing reported, signalling no error to the caller: in a cycle whose
token refresh and API call succeed but whose response parses without the
expected root, the Trading-call catch does not fire and the cycle still
reaches its closing POLL END log. -/
theorem C7_missing_root (st : TokenState) (itemIds : List String) (qty : Nat)
    (now now2 : Int) (data : RefreshResponse) (xml : String) :
    parseAndLogResponse none
      = { unexpected := true, ack := none, loggedErrors := [], loggedItems := [] }
    ∧ (processItems itemIds qty st ⟨now, now2, .ok data, .ok xml, .ok none⟩).1.report
        = some (parseAndLogResponse none)
    ∧ (processItems itemIds qty st ⟨now, now2, .ok data, .ok xml, .ok none⟩).1.completed = true
    ∧ (processItems itemIds qty st ⟨now, now2, .ok data, .ok xml, .ok none⟩).1.apiFailed = false
    ∧ (processItems itemIds qty st ⟨now, now2, .ok data, .ok xml, .ok none⟩).1.authFailed = false := by
  refine ⟨rfl, ?_⟩
  cases h : (getAccessToken now now2 st (.ok data)).1 with
  | error e =>
    have hok := getAccessToken_ok_of_ok now now2 st data
    rw [h] at hok
    simp [isErr] at hok
  | ok v =>
    refine ⟨?_, ?_, ?_, ?_⟩ <;> simp [processItems, h, callTradingAPI]

/-- C8 counterexample: with the client id present but equal to the empty
string (and every other required value present and non-empty), startup
still exits with code 1: the JS check `!EBAY_CLIENT_ID` fires on any falsy
value, not only on an absent one. -/
theorem C8_counterexample :
    runStartup (some "") (some "b") (some "c") (some "d") = (some 1, false)
    ∧ (some "" : Option String) ≠ none := by
  constructor
  · rfl
  · decide

/-- C8 (amended): if any required configuration value (client id, client
secret, refresh token, item-id list) is absent at startup, the process
exits with code 1 before the polling code — and hence any network call —
is reached; when all four are present AND non-empty, startup does not exit
and execution reaches the polling code. -/
theorem C8_startup_check (a b c d : Option String) :
    ((a = none ∨ b = none ∨ c = none ∨ d = none) →
      runStartup a b c d = (some 1, false))
    ∧ (isTruthyStr a = true → isTruthyStr b = true → isTruthyStr c = true →
        isTruthyStr d = true → runStartup a b c d = (none, true)) := by
  constructor
  · intro h
    have hx : startupExit a b c d = some 1 := by
      unfold startupExit
      rcases h with h | h | h | h <;> subst h <;> simp [isTruthyStr]
    unfold runStartup
    rw [hx]
  · intro h1 h2 h3 h4
    have hx : startupExit a b c d = none := by
      unfold startupExit
      simp [h1, h2, h3, h4]
    unfold runStartup
    rw [hx]

/-- Witness for C8 (amended): an absent client id exits with 1 before the
polling code; four non-empty values proceed to the polling code. -/
theorem C8_startup_check_witness :
    runStartup none (some "b") (some "c") (some "d") = (some 1, false)
    ∧ runStartup (some "a") (some "b") (some "c") (some "d") = (none, true) :=
  ⟨(C8_startup_check none (some "b") (some "c") (some "d")).1 (Or.inl rfl),
   (C8_startup_check (some "a") (some "b") (some "c") (some "d")).2
     (by decide) (by decide) (by decide) (by decide)⟩

/-- C9: the loop executes every scheduled cycle whatever the oracle
outcomes are — token-refresh errors, API errors and parse errors included
— because processItems catches them: the number of cycle results always
equals the number of scheduled inputs, the token [FATAL] catch fires
exactly when token acquisition errors, and the Trading-call [FATAL] catch
fires exactly when the token was obtained but the API call or the response
parse errors. No error propagates out of a cycle. -/
theorem C9_loop_resilient (itemIds : List String) (qty : Nat) :
    (∀ st : TokenState, ∀ inputs : List CycleInput,
        (runLoop itemIds qty st inputs).length = inputs.length)
    ∧ (∀ st : TokenState, ∀ inp : CycleInput,
        (processItems itemIds qty st inp).1.authFailed
          = isErr (getAccessToken inp.now inp.now2 st inp.net).1
        ∧ (processItems itemIds qty st inp).1.apiFailed
          = (!isErr (getAccessToken inp.now inp.now2 st inp.net).1
             && (isErr inp.api || isErr inp.parsed))) := by
  constructor
  · intro st inputs
    induction inputs generalizing st with
    | nil => rfl
    | cons inp rest ih => simp [runLoop, ih]
  · intro st inp
    cases h : (getAccessToken inp.now inp.now2 st inp.net).1 with
    | error e =>
      constructor <;> simp [processItems, h, isErr]
    | ok v =>
      cases ha : inp.api with
      | error e2 =>
        constructor <;> simp [processItems, h, ha, isErr, callTradingAPI]
      | ok body =>
        cases hp : inp.parsed with
        | error e3 =>
          constructor <;> simp [processItems, h, ha, hp, isErr, callTradingAPI]
        | ok root =>
          constructor <;> simp [processItems, h, ha, hp, isErr, callTradingAPI]
